import Mathlib

/-!
Verification of `app_mesa_ayuda_inventarios_streamlit.py`, a single-file
help-desk / inventory application.  The Python functions relevant to the
frozen claims are shallowly embedded below: SQL tables become Lean lists of
records, `pandas` row lookups become `List.find?` (first matching row, as
`LIMIT 1` / `df.iloc[0]` produce), wall-clock times are seconds as `Nat`,
and SQLite `REAL` quantities are rationals.  Every definition follows the
corresponding Python source line by line; theorems settle the claims.
-/

set_option maxRecDepth 4000

/-! ## Byte / word helpers for `hashlib.sha256` -/

/-- Truncation to a 32-bit machine word. -/
def w32 (n : Nat) : Nat := n % 4294967296

/-- 32-bit modular addition. -/
def wadd (a b : Nat) : Nat := w32 (a + b)

/-- Right rotation of a 32-bit word by `n` places. -/
def rotr (n x : Nat) : Nat := w32 ((x >>> n) ||| (x <<< (32 - n)))

/-- Bitwise complement of a 32-bit word. -/
def wnot (x : Nat) : Nat := 4294967295 - w32 x

/-- Binary search for the integer `e`-th root (auxiliary, fuel-driven). -/
def rootSearch (e n : Nat) : Nat → Nat → Nat → Nat
  | 0, lo, _ => lo
  | fuel + 1, lo, hi =>
    if hi ≤ lo + 1 then lo
    else
      let mid := (lo + hi) / 2
      if mid ^ e ≤ n then rootSearch e n fuel mid hi else rootSearch e n fuel lo mid

/-- Integer `e`-th root: the greatest `r` with `r ^ e ≤ n`. -/
def natRoot (e n : Nat) : Nat := rootSearch e n 200 0 (n + 1)

/-- The first 64 primes, from which the SHA-256 round constants derive. -/
def primes64 : List Nat :=
  [2, 3, 5, 7, 11, 13, 17, 19, 23, 29, 31, 37, 41, 43, 47, 53,
   59, 61, 67, 71, 73, 79, 83, 89, 97, 101, 103, 107, 109, 113, 127, 131,
   137, 139, 149, 151, 157, 163, 167, 173, 179, 181, 191, 193, 197, 199, 211, 223,
   227, 229, 233, 239, 241, 251, 257, 263, 269, 271, 277, 281, 283, 293, 307, 311]

/-- SHA-256 round constants: fractional parts of the cube roots of the
first 64 primes, scaled by `2 ^ 32`. -/
def sha256K : List Nat := primes64.map (fun p => natRoot 3 (p * 2 ^ 96) % 2 ^ 32)

/-- SHA-256 initial hash value: fractional parts of the square roots of the
first 8 primes, scaled by `2 ^ 32`. -/
def sha256H0 : List Nat := (primes64.take 8).map (fun p => natRoot 2 (p * 2 ^ 64) % 2 ^ 32)

def smallSigma0 (x : Nat) : Nat := (rotr 7 x) ^^^ (rotr 18 x) ^^^ (x >>> 3)
def smallSigma1 (x : Nat) : Nat := (rotr 17 x) ^^^ (rotr 19 x) ^^^ (x >>> 10)
def bigSigma0 (x : Nat) : Nat := (rotr 2 x) ^^^ (rotr 13 x) ^^^ (rotr 22 x)
def bigSigma1 (x : Nat) : Nat := (rotr 6 x) ^^^ (rotr 11 x) ^^^ (rotr 25 x)
def chWord (x y z : Nat) : Nat := (x &&& y) ^^^ (wnot x &&& z)
def majWord (x y z : Nat) : Nat := (x &&& y) ^^^ (x &&& z) ^^^ (y &&& z)

/-- Split a list into chunks of `sz` elements (fuel-driven). -/
def chunkAux (sz : Nat) : Nat → List Nat → List (List Nat)
  | 0, _ => []
  | fuel + 1, l => if l.isEmpty then [] else l.take sz :: chunkAux sz fuel (l.drop sz)

def chunks (sz : Nat) (l : List Nat) : List (List Nat) := chunkAux sz l.length l

/-- Big-endian 32-bit word from (up to) four bytes. -/
def beWord : List Nat → Nat
  | [a, b, c, d] => (a <<< 24) ||| (b <<< 16) ||| (c <<< 8) ||| d
  | _ => 0

/-- Big-endian byte expansion of `n` over `k` bytes. -/
def beBytes : Nat → Nat → List Nat
  | 0, _ => []
  | k + 1, n => beBytes k (n >>> 8) ++ [n &&& 255]

/-- SHA-256 message padding: `0x80`, zeros to 56 mod 64, 64-bit bit length. -/
def sha256Pad (msg : List Nat) : List Nat :=
  let L := msg.length
  let zeros := (120 - ((L + 1) % 64)) % 64
  msg ++ [128] ++ List.replicate zeros 0 ++ beBytes 8 (8 * L)

/-- Message-schedule extension from 16 to 64 words (fuel-driven). -/
def scheduleAux : Nat → List Nat → List Nat
  | 0, ws => ws
  | n + 1, ws =>
    let i := ws.length
    let nw := w32 (smallSigma1 (ws.getD (i - 2) 0) + ws.getD (i - 7) 0 +
                   smallSigma0 (ws.getD (i - 15) 0) + ws.getD (i - 16) 0)
    scheduleAux n (ws ++ [nw])

def schedule (ws : List Nat) : List Nat := scheduleAux 48 ws

/-- The eight 32-bit working variables of the SHA-256 compression function. -/
structure Hw where
  a : Nat
  b : Nat
  c : Nat
  d : Nat
  e : Nat
  f : Nat
  g : Nat
  h : Nat
  deriving DecidableEq

def sha256Round (st : Hw) (kw : Nat × Nat) : Hw :=
  let t1 := w32 (st.h + bigSigma1 st.e + chWord st.e st.f st.g + kw.1 + kw.2)
  let t2 := w32 (bigSigma0 st.a + majWord st.a st.b st.c)
  ⟨wadd t1 t2, st.a, st.b, st.c, wadd st.d t1, st.e, st.f, st.g⟩

def sha256Compress (H : Hw) (block : List Nat) : Hw :=
  let ws := schedule ((chunks 4 block).map beWord)
  let st := (sha256K.zip ws).foldl sha256Round H
  ⟨wadd H.a st.a, wadd H.b st.b, wadd H.c st.c, wadd H.d st.d,
   wadd H.e st.e, wadd H.f st.f, wadd H.g st.g, wadd H.h st.h⟩

def hwInit : Hw :=
  ⟨sha256H0.getD 0 0, sha256H0.getD 1 0, sha256H0.getD 2 0, sha256H0.getD 3 0,
   sha256H0.getD 4 0, sha256H0.getD 5 0, sha256H0.getD 6 0, sha256H0.getD 7 0⟩

/-- SHA-256 digest (32 bytes) of a byte sequence. -/
def sha256 (msg : List Nat) : List Nat :=
  let Hf := (chunks 64 (sha256Pad msg)).foldl sha256Compress hwInit
  ([Hf.a, Hf.b, Hf.c, Hf.d, Hf.e, Hf.f, Hf.g, Hf.h].map (beBytes 4)).foldr (· ++ ·) []

def hexDigitChar (n : Nat) : Char := if n < 10 then Char.ofNat (48 + n) else Char.ofNat (87 + n)

def byteHex (b : Nat) : String := String.mk [hexDigitChar (b / 16), hexDigitChar (b % 16)]

def bytesHex (bs : List Nat) : String := (bs.map byteHex).foldl (· ++ ·) ""

/-- Hex digest of the SHA-256 of a byte sequence (`hashlib...hexdigest()`). -/
def sha256hex (msg : List Nat) : String := bytesHex (sha256 msg)

/-- UTF-8 encoding of a single character. -/
def encodeChar (c : Char) : List Nat :=
  let n := c.toNat
  if n < 128 then [n]
  else if n < 2048 then [192 + n / 64, 128 + n % 64]
  else if n < 65536 then [224 + n / 4096, 128 + (n / 64) % 64, 128 + n % 64]
  else [240 + n / 262144, 128 + (n / 4096) % 64, 128 + (n / 64) % 64, 128 + n % 64]

/-- UTF-8 encoding of a string (`str.encode("utf-8")`). -/
def utf8Encode (s : String) : List Nat := s.toList.foldr (fun c acc => encodeChar c ++ acc) []

/-- Python line 47:
`def hash_password(p, salt): return hashlib.sha256((salt + p).encode("utf-8")).hexdigest()`. -/
def hash_password (p salt : String) : String := sha256hex (utf8Encode (salt ++ p))

/-! ## DB helpers with auto-migration (`_retry_migrating`, lines 26-45) -/

def charListStarts : List Char → List Char → Bool
  | [], _ => true
  | _ :: _, [] => false
  | a :: ps, b :: ss => a == b && charListStarts ps ss

def charListHas (p : List Char) : List Char → Bool
  | [] => p.isEmpty
  | b :: ss => charListStarts p (b :: ss) || charListHas p ss

/-- Python `k in msg` substring containment. -/
def containsSub (msg k : String) : Bool := charListHas k.toList msg.toList

/-- Line 29: the error messages that trigger an automatic schema migration. -/
def isMigrationError (msg : String) : Bool :=
  ["no such column", "has no column", "no such table"].any (fun k => containsSub msg k)

/-- Lines 26-31, `_retry_migrating`.  A database operation is a function of
whether `migrate_schema` has run; the result pairs the returned/raised value
with whether the migration ran. -/
def retryMigrating {α : Type} (op : Bool → Except String α) : Except String α × Bool :=
  match op false with
  | Except.ok a => (Except.ok a, false)
  | Except.error e =>
    if isMigrationError e then (op true, true) else (Except.error e, false)

/-- Lines 33-38: `run_script` wraps its SQL execution in `_retry_migrating`. -/
def run_script (exec : Bool → Except String Unit) : Except String Unit × Bool :=
  retryMigrating exec

/-- Lines 40-45: `run_query` wraps its query in `_retry_migrating`. -/
def run_query {α : Type} (q : Bool → Except String α) : Except String α × Bool :=
  retryMigrating q

/-! ## Data model: rows of the SQLite tables used by the claims -/

structure User where
  id : Nat
  username : String
  email : String
  password_hash : String
  password_salt : String
  role : String
  active : Nat
  created_at : Nat
  deriving DecidableEq

structure SlaPolicy where
  id : Nat
  process : String
  priority : String
  response_hours : Nat
  resolution_hours : Nat
  active : Nat
  deriving DecidableEq

structure PriorityMatrixRow where
  urgency : String
  impact : String
  priority : String
  deriving DecidableEq

structure ServicePriorityMatrixRow where
  catalog_id : Nat
  urgency : String
  impact : String
  priority : String
  deriving DecidableEq

structure CiItem where
  id : Nat
  name : String
  criticality : Option String
  deriving DecidableEq

structure RiskRule where
  ci_criticality : Option String
  change_impact : Option String
  priority : Option String
  risk_result : String
  deriving DecidableEq

structure StockRow where
  product_id : Nat
  warehouse_id : Nat
  qty : Rat
  deriving DecidableEq

structure ResetRow where
  id : Nat
  user_id : Nat
  token : String
  created_at : Nat
  expires_at : Nat
  used : Nat
  deriving DecidableEq

structure Approval where
  id : Nat
  ticket_id : Nat
  level : String
  approver_email : String
  status : String
  deriving DecidableEq

structure Ticket where
  id : Nat
  code : String
  title : String
  description : String
  category : String
  priority : String
  urgency : String
  impact : String
  status : String
  sla_hours : Nat
  response_sla_hours : Nat
  first_response_at : Option Nat
  resolved_at : Option Nat
  itil_type : String
  change_risk : Option String
  change_impact : Option String
  planned_start : Option String
  planned_end : Option String
  approval_mgr_status : String
  approval_cab_status : String
  approval_status : String
  backout_plan : Option String
  problem_root_cause : Option String
  problem_workaround : Option String
  problem_id : Option Nat
  created_by : Option Nat
  assigned_to : Option Nat
  warehouse_id : Option Nat
  product_id : Option Nat
  asset_id : Option Nat
  ci_id : Option Nat
  catalog_id : Option Nat
  watchers_emails : String
  created_at : Nat
  updated_at : Nat
  due_at : Option Nat
  closed_at : Option Nat
  deriving DecidableEq

/-- The `users` and `password_resets` tables together. -/
structure AuthDb where
  users : List User
  resets : List ResetRow
  deriving DecidableEq

/-! ## Authentication (lines 387-423) and credential creation -/

/-- Line 417: `SELECT * FROM users WHERE username=? AND active=1`, first row. -/
def findActiveUser (users : List User) (username : String) : Option User :=
  users.find? (fun u => u.username == username && u.active == 1)

/-- Lines 417-423: the login check of `login_ui`. -/
def loginOk (users : List User) (username pwd : String) : Bool :=
  match findActiveUser users username with
  | none => false
  | some row => hash_password pwd row.password_salt == row.password_hash

/-- Lines 217-220 of `init_db`: the initial admin credential.  The generated
salt (`secrets.token_hex(8)`) is passed in explicitly. -/
def initialAdminUser (id now : Nat) (salt : String) : User :=
  ⟨id, "admin", "admin@example.com", hash_password "admin" salt, salt, "admin", 1, now⟩

/-- Lines 440-441 of `signup_ui`: a signup credential. -/
def signupUser (id : Nat) (username email pwd_plain salt : String) (now : Nat) : User :=
  ⟨id, username, email, hash_password pwd_plain salt, salt, "visor", 1, now⟩

/-- Lines 280-282 of `try_sso_login`: the auto-provisioned SSO credential
with a random password. -/
def ssoProvisionUser (id : Nat) (username randomPwd salt : String) (now : Nat) : User :=
  ⟨id, username, username ++ "@example.com", hash_password randomPwd salt, salt, "visor", 1, now⟩

/-- Line 402: the `UPDATE users SET password_hash=?, password_salt=?` of
`complete_password_reset`. -/
def resetUserUpdate (new_password newSalt : String) (u : User) : User :=
  { u with password_hash := hash_password new_password newSalt, password_salt := newSalt }

/-- Lines 387-394, `start_password_reset`.  The generated row id and token
are passed in explicitly; the expiry is one hour (3600 s) after `now`. -/
def start_password_reset (now rowId : Nat) (token identifier : String) (db : AuthDb) :
    Option String × AuthDb :=
  match db.users.find? (fun u => (u.username == identifier || u.email == identifier) && u.active == 1) with
  | none => (none, db)
  | some row =>
    (some token, { db with resets := db.resets ++ [⟨rowId, row.id, token, now, now + 3600, 0⟩] })

/-- Lines 396-403, `complete_password_reset`. -/
def complete_password_reset (now : Nat) (newSalt token new_password : String) (db : AuthDb) :
    Bool × AuthDb :=
  match db.resets.find? (fun r => r.token == token && r.used == 0) with
  | none => (false, db)
  | some row =>
    if row.expires_at < now then (false, db)
    else
      (true,
       { users := db.users.map (fun u => if u.id == row.user_id then resetUserUpdate new_password newSalt u else u),
         resets := db.resets.map (fun r => if r.id == row.id then { r with used := 1 } else r) })

/-! ## SLA, matrices, transitions, risk (lines 472-510) -/

/-- Lines 472-475, `sla_lookup`. -/
def sla_lookup (policies : List SlaPolicy) (process priority : String) : Nat × Nat :=
  match policies.find? (fun r => r.process == process && r.priority == priority && r.active == 1) with
  | none => (4, 48)
  | some r => (r.response_hours, r.resolution_hours)

/-- Lines 477-479, `matrix_priority_global`. -/
def matrix_priority_global (pm : List PriorityMatrixRow) (urgency impact : String) : String :=
  match pm.find? (fun r => r.urgency == urgency && r.impact == impact) with
  | none => "Media"
  | some r => r.priority

/-- Lines 481-484, `matrix_priority_service`.  Python's `if not catalog_id:`
is truthiness-based, so `catalog_id = 0` also falls back to the global
matrix. -/
def matrix_priority_service (spm : List ServicePriorityMatrixRow) (pm : List PriorityMatrixRow)
    (catalog_id : Option Nat) (urgency impact : String) : String :=
  match catalog_id with
  | none => matrix_priority_global pm urgency impact
  | some cid =>
    if cid = 0 then matrix_priority_global pm urgency impact
    else
      match spm.find? (fun r => r.catalog_id == cid && r.urgency == urgency && r.impact == impact) with
      | none => matrix_priority_global pm urgency impact
      | some r => r.priority

/-- Lines 490-492, `state_transition_ok`. -/
def state_transition_ok (old nw : String) : Bool :=
  let allowed : List String :=
    if old = "Abierto" then ["En Progreso", "Cerrado"]
    else if old = "En Progreso" then ["Resuelto", "Cerrado"]
    else if old = "Resuelto" then ["Cerrado", "En Progreso"]
    else []
  allowed.contains nw

/-- Lines 497-500 of `auto_change_risk`: the CI criticality lookup.
Python's `if ci_id:` treats `0` like `None`. -/
def critLookup (cis : List CiItem) (ci_id : Option Nat) : Option String :=
  match ci_id with
  | none => none
  | some cid =>
    if cid = 0 then none
    else
      match cis.find? (fun c => c.id == cid) with
      | none => none
      | some c => c.criticality

/-- SQL `col = ?` comparison: a NULL on either side never matches. -/
def sqlEq (a b : Option String) : Bool :=
  match a, b with
  | some x, some y => x == y
  | _, _ => false

/-- Line 501: the `WHERE` clause of the `risk_rules` query. -/
def riskRuleMatches (crit chg : Option String) (prio : String) (r : RiskRule) : Bool :=
  (r.ci_criticality.isNone || sqlEq r.ci_criticality crit) &&
  (r.change_impact.isNone || sqlEq r.change_impact chg) &&
  (r.priority.isNone || sqlEq r.priority (some prio))

/-- Python `x or d` on an optional string: `None` and `""` give `d`. -/
def orDefaultStr (o : Option String) (d : String) : String :=
  match o with
  | none => d
  | some s => if s = "" then d else s

/-- Line 505: `{"Baja":0,"Media":1,"Alta":2,"Crítica":3}.get(·, 1)`. -/
def critRank (s : String) : Nat :=
  if s = "Baja" then 0 else if s = "Media" then 1 else if s = "Alta" then 2
  else if s = "Crítica" then 3 else 1

/-- Line 506: `{"Bajo":0,"Medio":1,"Alto":2,"Crítico":3}.get(·, 1)`. -/
def impactRank (s : String) : Nat :=
  if s = "Bajo" then 0 else if s = "Medio" then 1 else if s = "Alto" then 2
  else if s = "Crítico" then 3 else 1

/-- Line 507: `{"Baja":0,"Media":1,"Alta":2,"Crítica":3}.get(priority, 1)`. -/
def prioRank (s : String) : Nat :=
  if s = "Baja" then 0 else if s = "Media" then 1 else if s = "Alta" then 2
  else if s = "Crítica" then 3 else 1

/-- Lines 504-507: the default-heuristic score. -/
def riskScore (crit chg : Option String) (priority : String) : Nat :=
  critRank (orDefaultStr crit "Media") + impactRank (orDefaultStr chg "Medio") + prioRank priority

/-- Lines 495-510, `auto_change_risk`. -/
def auto_change_risk (cis : List CiItem) (rules : List RiskRule)
    (ci_id : Option Nat) (change_impact : Option String) (priority : String) : String :=
  let crit := critLookup cis ci_id
  match rules.find? (riskRuleMatches crit change_impact priority) with
  | some r => r.risk_result
  | none =>
    let score := riskScore crit change_impact priority
    if score ≥ 7 then "Alto" else if score ≥ 5 then "Medio" else "Bajo"

/-! ## Stock adjustment (lines 527-534) -/

/-- First `stock` row for a `(product_id, warehouse_id)` pair, as the
`SELECT qty ... fetchone()` of `adjust_stock` reads it. -/
def stockLookup (rows : List StockRow) (pid wid : Nat) : Option Rat :=
  (rows.find? (fun s => s.product_id == pid && s.warehouse_id == wid)).map StockRow.qty

/-- Lines 527-534, `adjust_stock`: insert `max(0, delta)` when no row exists,
else set every matching row to `max(0, qty + delta)` computed from the
fetched row. -/
def adjust_stock (rows : List StockRow) (pid wid : Nat) (delta : Rat) : List StockRow :=
  match rows.find? (fun s => s.product_id == pid && s.warehouse_id == wid) with
  | none => rows ++ [⟨pid, wid, max 0 delta⟩]
  | some row =>
    let new_qty := max 0 (row.qty + delta)
    rows.map (fun s => if s.product_id == pid && s.warehouse_id == wid then { s with qty := new_qty } else s)

/-! ## Ticket creation (`page_tickets_nuevo`, lines 753-774) -/

/-- The `INSERT INTO tickets` of `page_tickets_nuevo` (lines 766-774):
`itil_type` and `prio_value` are the form values after the catalog override,
the SLA pair comes from `sla_lookup` (line 725) and `due_at` is
`now + timedelta(hours=resolution_sla)` (line 756). -/
def createTicket (policies : List SlaPolicy) (id : Nat)
    (code title description itil_type prio_value urgency impact : String)
    (creator : Nat) (wh_id prod_id asset_id ci_id catalog_id : Option Nat) (watchers : String)
    (change_risk change_impact planned_start planned_end backout_plan : Option String)
    (problem_root_cause problem_workaround : Option String) (problem_parent_id : Option Nat)
    (now : Nat) : Ticket :=
  let sl := sla_lookup policies itil_type prio_value
  { id := id, code := code, title := title, description := description,
    category := itil_type, priority := prio_value, urgency := urgency, impact := impact,
    status := "Abierto", sla_hours := sl.2, response_sla_hours := sl.1,
    first_response_at := none, resolved_at := none, itil_type := itil_type,
    change_risk := change_risk, change_impact := change_impact,
    planned_start := planned_start, planned_end := planned_end,
    approval_mgr_status := "Pendiente", approval_cab_status := "Pendiente",
    approval_status := "Pendiente", backout_plan := backout_plan,
    problem_root_cause := problem_root_cause, problem_workaround := problem_workaround,
    problem_id := problem_parent_id, created_by := some creator, assigned_to := none,
    warehouse_id := wh_id, product_id := prod_id, asset_id := asset_id, ci_id := ci_id,
    catalog_id := catalog_id, watchers_emails := watchers, created_at := now,
    updated_at := now, due_at := some (now + 3600 * sl.2), closed_at := none }

/-! ## Ticket management page (`page_tickets_bandeja`, lines 804-912) -/

/-- Widget values entering the `Guardar cambios` handler. -/
structure BandejaInput where
  newStatus : String
  assignee : Option String
  moreHours : Nat
  watchers : String
  risk : Option String
  impactchg : Option String
  ps : Option String
  pe : Option String
  backout : Option String
  root_cause : Option String
  workaround : Option String
  deriving DecidableEq

def is_admin (user : User) : Bool := user.role == "admin"

def is_agent (user : User) : Bool := user.role == "agente"

def assigned_to_me (user : User) (t : Ticket) : Bool := t.assigned_to == some user.id

def ticketUnassigned (t : Ticket) : Bool := t.assigned_to == none

/-- Line 839: `can_edit_status = is_admin or (is_agent and assigned_to_me)`;
`can_adjust_sla` and `can_update_watchers` are the same expression. -/
def can_edit_status (user : User) (t : Ticket) : Bool :=
  is_admin user || (is_agent user && assigned_to_me user t)

def can_assign_admin (user : User) : Bool := is_admin user

/-- Line 840: `can_self_assign = is_agent and (unassigned or assigned_to_me)`. -/
def can_self_assign (user : User) (t : Ticket) : Bool :=
  is_agent user && (ticketUnassigned t || assigned_to_me user t)

/-- Line 842: `SELECT id, username, email FROM users WHERE active=1`. -/
def activeUsers (users : List User) : List User := users.filter (fun u => u.active == 1)

/-- Line 847: the joined username of the current assignee (`t['asignado']`). -/
def currentAssigneeName (users : List User) (t : Ticket) : Option String :=
  match t.assigned_to with
  | none => none
  | some aid => (users.find? (fun u => u.id == aid)).map User.username

/-- Lines 845-846: the status widget; non-editors keep the old status. -/
def effectiveNewStatus (user : User) (t : Ticket) (inp : BandejaInput) : String :=
  if can_edit_status user t then inp.newStatus else t.status

/-- Lines 847-856: the assignee widget.  Admins pick any active user,
self-assigning agents only themselves, everyone else keeps the current
assignee. -/
def effectiveAssignee (user : User) (users : List User) (t : Ticket) (inp : BandejaInput) :
    Option String :=
  if can_assign_admin user then inp.assignee
  else if can_self_assign user t then
    (if inp.assignee == some user.username then inp.assignee else none)
  else currentAssigneeName users t

/-- Lines 887-891: resolution of the assignee name to a user id.  Python's
`if assignee:` is truthiness-based, hence the empty-string case. -/
def resolveAssigneeId (user : User) (users : List User) : Option String → Option Nat
  | none => none
  | some name =>
    if name = "" then none
    else if name = user.username then some user.id
    else
      match (activeUsers users).find? (fun u => u.username == name) with
      | none => none
      | some u => some u.id

/-- Line 884: `SELECT status FROM change_approvals WHERE ticket_id=?`. -/
def ticketApprovals (approvals : List Approval) (t : Ticket) : List Approval :=
  approvals.filter (fun a => a.ticket_id == t.id)

/-- Line 885: `ap.empty or any(s != "Aprobado" ...)`. -/
def approvalsBlock (approvals : List Approval) (t : Ticket) : Bool :=
  (ticketApprovals approvals t).isEmpty ||
    (ticketApprovals approvals t).any (fun a => a.status != "Aprobado")

/-- Lines 892-895: the optional SLA extension of `due_at`. -/
def bandejaDueAt (now : Nat) (user : User) (t : Ticket) (inp : BandejaInput) : Option Nat :=
  if 0 < inp.moreHours ∧ can_edit_status user t = true then
    match t.due_at with
    | some d => some (d + 3600 * inp.moreHours)
    | none => some (now + 3600 * inp.moreHours)
  else t.due_at

/-- Lines 887-903: the `UPDATE tickets SET ...` row produced on a successful
save.  The RFC/problem fields hold the widget values of lines 860-872,
which are `None` outside the matching `itil_type` branch. -/
def bandejaApply (now : Nat) (user : User) (users : List User) (t : Ticket)
    (inp : BandejaInput) : Ticket :=
  let ns := effectiveNewStatus user t inp
  let resolved_at :=
    if (ns = "Resuelto" ∨ ns = "Cerrado") ∧ can_edit_status user t = true then some now
    else t.resolved_at
  let closed_at :=
    if ((ns = "Resuelto" ∨ ns = "Cerrado") ∧ can_edit_status user t = true) ∧ ns = "Cerrado" then some now
    else t.closed_at
  { t with
    status := ns,
    assigned_to := resolveAssigneeId user users (effectiveAssignee user users t inp),
    updated_at := now,
    due_at := bandejaDueAt now user t inp,
    closed_at := closed_at,
    watchers_emails := if can_edit_status user t then inp.watchers else t.watchers_emails,
    change_risk := if t.itil_type = "Cambio" then inp.risk else none,
    change_impact := if t.itil_type = "Cambio" then inp.impactchg else none,
    planned_start := if t.itil_type = "Cambio" then inp.ps else none,
    planned_end := if t.itil_type = "Cambio" then inp.pe else none,
    backout_plan := if t.itil_type = "Cambio" then inp.backout else none,
    problem_root_cause := if t.itil_type = "Problema" then inp.root_cause else none,
    problem_workaround := if t.itil_type = "Problema" then inp.workaround else none,
    resolved_at := resolved_at }

/-- Lines 879-903: the `Guardar cambios` handler.  An `Except.error` is the
`st.error(...); return` path, before any SQL write. -/
def bandejaSave (now : Nat) (user : User) (users : List User) (approvals : List Approval)
    (t : Ticket) (inp : BandejaInput) : Except String Ticket :=
  if state_transition_ok t.status (effectiveNewStatus user t inp) = false ∧ user.role ≠ "admin" then
    Except.error "Transición de estado no permitida por el flujo ITIL."
  else if t.itil_type = "Cambio" ∧
      (effectiveNewStatus user t inp = "Resuelto" ∨ effectiveNewStatus user t inp = "Cerrado") ∧
      user.role ≠ "admin" ∧ approvalsBlock approvals t = true then
    Except.error "No puedes resolver/cerrar un Cambio sin todas las aprobaciones requeridas."
  else
    Except.ok (bandejaApply now user users t inp)

/-- Effect of the handler on the `tickets` table: an error leaves it
untouched, a success updates the row with the ticket's id. -/
def bandejaSaveTable (now : Nat) (user : User) (users : List User) (approvals : List Approval)
    (t : Ticket) (inp : BandejaInput) (tickets : List Ticket) : List Ticket :=
  match bandejaSave now user users approvals t inp with
  | Except.error _ => tickets
  | Except.ok t2 => tickets.map (fun r => if r.id == t.id then t2 else r)

/-! ## Agent Kanban page (`page_kanban_agente`, lines 914-931) -/

/-- Lines 928-929: the `Atrás` button, shown when the column is not
`Abierto`; the update runs unconditionally. -/
def kanbanBack (now : Nat) (t : Ticket) : Ticket :=
  { t with status := if t.status = "En Progreso" then "Abierto" else "En Progreso",
           updated_at := now }

/-- Lines 930-931: the `Avanzar` button, shown when the column is not
`Resuelto`; the update runs unconditionally. -/
def kanbanForward (now : Nat) (t : Ticket) : Ticket :=
  { t with status := if t.status = "Abierto" then "En Progreso" else "Resuelto",
           updated_at := now }

/-! ## Claim-side (spec-worded) definitions, for refinement comparisons -/

/-- The transition table exactly as claim C2 lists it. -/
def claimTransitions : List (String × String) :=
  [("Abierto", "En Progreso"), ("Abierto", "Cerrado"),
   ("En Progreso", "Resuelto"), ("En Progreso", "Cerrado"),
   ("Resuelto", "Cerrado"), ("Resuelto", "En Progreso")]

/-- Claim C10's rank of the CI criticality, `Media` when absent. -/
def claimCritRank (crit : Option String) : Nat :=
  match crit with
  | none => 1
  | some s =>
    if s = "Baja" then 0 else if s = "Media" then 1 else if s = "Alta" then 2
    else if s = "Crítica" then 3 else 1

/-- Claim C10's rank of the change impact, `Medio` when absent. -/
def claimImpactRank (chg : Option String) : Nat :=
  match chg with
  | none => 1
  | some s =>
    if s = "Bajo" then 0 else if s = "Medio" then 1 else if s = "Alto" then 2
    else if s = "Crítico" then 3 else 1

/-- Claim C10's rank of the priority, 1 for unknown values. -/
def claimPrioRank (p : String) : Nat :=
  if p = "Baja" then 0 else if p = "Media" then 1 else if p = "Alta" then 2
  else if p = "Crítica" then 3 else 1

/-- Claim C10's default heuristic, worded as in the claim: `Alto` for
score at least 7, `Medio` for score between 5 and 6, `Bajo` otherwise. -/
def claimRiskHeuristic (crit chg : Option String) (p : String) : String :=
  let score := claimCritRank crit + claimImpactRank chg + claimPrioRank p
  if score ≥ 7 then "Alto" else if 5 ≤ score ∧ score ≤ 6 then "Medio" else "Bajo"

/-! ## Concrete fixtures for counterexamples and witnesses -/

def savedTicket : Except String Ticket → Option Ticket
  | Except.ok t => some t
  | Except.error _ => none

def exAdmin : User := ⟨1, "root", "root@example.com", "h1", "s1", "admin", 1, 0⟩

def exVisor : User := ⟨2, "maria", "maria@example.com", "h2", "s2", "visor", 1, 0⟩

def exAgent : User := ⟨3, "agente1", "agente1@example.com", "h3", "s3", "agente", 1, 0⟩

def exUsers : List User := [exAdmin, exVisor, exAgent]

def baseTicket : Ticket :=
  { id := 10, code := "TCK-20250101-0001", title := "Pantalla rota", description := "",
    category := "Incidente", priority := "Media", urgency := "Media", impact := "Medio",
    status := "Abierto", sla_hours := 48, response_sla_hours := 4,
    first_response_at := none, resolved_at := none, itil_type := "Incidente",
    change_risk := none, change_impact := none, planned_start := none, planned_end := none,
    approval_mgr_status := "Pendiente", approval_cab_status := "Pendiente",
    approval_status := "Pendiente", backout_plan := none, problem_root_cause := none,
    problem_workaround := none, problem_id := none, created_by := some 1,
    assigned_to := none, warehouse_id := none, product_id := none, asset_id := none,
    ci_id := none, catalog_id := none, watchers_emails := "", created_at := 0,
    updated_at := 0, due_at := none, closed_at := none }

def exCambioTicket : Ticket :=
  { baseTicket with id := 11, itil_type := "Cambio", status := "En Progreso",
                    assigned_to := some 3 }

def exApprovals : List Approval := [⟨1, 11, "CAB", "cab@example.com", "Pendiente"⟩]

def exInputAssign : BandejaInput :=
  ⟨"En Progreso", some "maria", 0, "", none, none, none, none, none, none, none⟩

def exResetUser : User := ⟨7, "ana", "ana@example.com", "oldhash", "oldsalt", "visor", 1, 0⟩

def exAuthDb : AuthDb := ⟨[exResetUser], [⟨1, 7, "tok123", 0, 3600, 0⟩]⟩

def exMigOp : Bool → Except String Nat :=
  fun migrated => if migrated then Except.ok 7 else Except.error "no such column: catalog_id"

def exOtherOp : Bool → Except String Nat :=
  fun _ => Except.error "UNIQUE constraint failed: users.username"

def exPolicies : List SlaPolicy := [⟨1, "Incidente", "Alta", 2, 24, 1⟩]

def exAssignedTicket : Ticket := { baseTicket with assigned_to := some 3 }

def exInpResolve : BandejaInput :=
  ⟨"Resuelto", none, 0, "", none, none, none, none, none, none, none⟩

def exApprovedApprovals : List Approval := [⟨1, 11, "CAB", "cab@example.com", "Aprobado"⟩]

/-! # Theorems -/

/-- Known-answer test grounding the SHA-256 embedding: the digest of `"abc"`
is the standard FIPS 180 test vector. -/
theorem sha256hex_abc :
    sha256hex (utf8Encode "abc") =
      "ba7816bf8f01cfea414140de5dae2223b00361a396177a9cb410ff61f20015ad" := by decide

/-! ## Helper lemmas -/

theorem findq_map_pred_invariant {α : Type} (p : α → Bool) (g : α → α) (l : List α)
    (hpres : ∀ x, p (g x) = p x) : (l.map g).find? p = (l.find? p).map g := by
  rw [List.find?_map g l]
  have h : p ∘ g = p := funext hpres
  rw [h]

/-- C3: every `run_script`/`run_query` call goes through `_retry_migrating`:
a first-attempt error whose message contains one of the migration keywords
causes `migrate_schema` to run and the operation to be retried exactly once,
the retry's outcome (success or failure) being returned verbatim; any other
error propagates unchanged with no migration. -/
theorem c3_retry_migrating_semantics {α : Type} (op : Bool → Except String α) :
    (∀ a, op false = Except.ok a → retryMigrating op = (Except.ok a, false)) ∧
    (∀ e, op false = Except.error e → isMigrationError e = true →
      retryMigrating op = (op true, true)) ∧
    (∀ e, op false = Except.error e → isMigrationError e = false →
      retryMigrating op = (Except.error e, false)) := by
  refine ⟨?_, ?_, ?_⟩
  · intro a h
    unfold retryMigrating
    rw [h]
  · intro e h hm
    unfold retryMigrating
    rw [h]
    simp [hm]
  · intro e h hm
    unfold retryMigrating
    rw [h]
    simp [hm]

theorem c3_witness :
    retryMigrating exMigOp = (Except.ok 7, true) ∧
    retryMigrating exOtherOp = (Except.error "UNIQUE constraint failed: users.username", false) := by
  constructor
  · have h := (c3_retry_migrating_semantics exMigOp).2.1 "no such column: catalog_id" rfl (by decide)
    simpa using h
  · exact (c3_retry_migrating_semantics exOtherOp).2.2 "UNIQUE constraint failed: users.username" rfl (by decide)

theorem critRank_orDefault (crit : Option String) :
    critRank (orDefaultStr crit "Media") = claimCritRank crit := by
  cases crit with
  | none => rfl
  | some s =>
    by_cases h : s = ""
    · subst h; rfl
    · simp only [orDefaultStr, if_neg h, critRank, claimCritRank]

theorem impactRank_orDefault (chg : Option String) :
    impactRank (orDefaultStr chg "Medio") = claimImpactRank chg := by
  cases chg with
  | none => rfl
  | some s =>
    by_cases h : s = ""
    · subst h; rfl
    · simp only [orDefaultStr, if_neg h, impactRank, claimImpactRank]

/-- C10: when no `risk_rules` row matches, `auto_change_risk` computes the
default heuristic exactly as the claim words it (rank sum with the claimed
defaults; `Alto` for score at least 7, `Medio` for 5..6, `Bajo` otherwise),
and the heuristic result is always one of `Bajo`/`Medio`/`Alto`. -/
theorem c10_auto_change_risk_default_heuristic (cis : List CiItem) (rules : List RiskRule)
    (ci_id : Option Nat) (change_impact : Option String) (priority : String)
    (hnorule : rules.find? (riskRuleMatches (critLookup cis ci_id) change_impact priority) = none) :
    auto_change_risk cis rules ci_id change_impact priority =
      claimRiskHeuristic (critLookup cis ci_id) change_impact priority ∧
    (auto_change_risk cis rules ci_id change_impact priority = "Bajo" ∨
     auto_change_risk cis rules ci_id change_impact priority = "Medio" ∨
     auto_change_risk cis rules ci_id change_impact priority = "Alto") := by
  have hscore : riskScore (critLookup cis ci_id) change_impact priority =
      claimCritRank (critLookup cis ci_id) + claimImpactRank change_impact + claimPrioRank priority := by
    unfold riskScore
    rw [critRank_orDefault, impactRank_orDefault]
    rfl
  have hmain : auto_change_risk cis rules ci_id change_impact priority =
      claimRiskHeuristic (critLookup cis ci_id) change_impact priority := by
    simp only [auto_change_risk, claimRiskHeuristic, hnorule, hscore]
    set sc := claimCritRank (critLookup cis ci_id) + claimImpactRank change_impact + claimPrioRank priority with hsc
    by_cases h7 : sc ≥ 7
    · simp [h7]
    · by_cases h5 : sc ≥ 5
      · have h6 : sc ≤ 6 := by omega
        simp [h7, h5, h6]
      · have h56 : ¬ (5 ≤ sc ∧ sc ≤ 6) := by omega
        simp [h7, h5, h56]
  refine ⟨hmain, ?_⟩
  rw [hmain]
  simp only [claimRiskHeuristic]
  split
  · right; right; rfl
  · split
    · right; left; rfl
    · left; rfl

theorem c10_witness :
    auto_change_risk [] [] none none "Crítica" = claimRiskHeuristic none none "Crítica" ∧
    (auto_change_risk [] [] none none "Crítica" = "Bajo" ∨
     auto_change_risk [] [] none none "Crítica" = "Medio" ∨
     auto_change_risk [] [] none none "Crítica" = "Alto") :=
  c10_auto_change_risk_default_heuristic [] [] none none "Crítica" rfl

/-- C6 counterexample: `catalog_id = 0` is non-null and the service matrix
holds a row for `(0, Media, Medio)` with priority `Alta`, yet the function
ignores it (Python's `if not catalog_id:` is truthy on 0) and returns the
global fallback `Media`. -/
theorem c6_counterexample :
    matrix_priority_service [⟨0, "Media", "Medio", "Alta"⟩] [] (some 0) "Media" "Medio" = "Media" ∧
    ("Media" : String) ≠ "Alta" := by decide

/-- C6 (amended): the lookup is as claimed except that the service-matrix
branch requires `catalog_id` to be non-null and nonzero; a null or zero
`catalog_id` falls back to the global matrix, a present global row gives its
priority, and `Media` is returned when no global row exists. -/
theorem c6_matrix_priority_service_amended (spm : List ServicePriorityMatrixRow)
    (pm : List PriorityMatrixRow) (urgency impact : String) :
    (matrix_priority_service spm pm none urgency impact =
       matrix_priority_global pm urgency impact) ∧
    (matrix_priority_service spm pm (some 0) urgency impact =
       matrix_priority_global pm urgency impact) ∧
    (∀ cid r, cid ≠ 0 →
       spm.find? (fun x => x.catalog_id == cid && x.urgency == urgency && x.impact == impact) = some r →
       matrix_priority_service spm pm (some cid) urgency impact = r.priority ∧
       r.catalog_id = cid ∧ r.urgency = urgency ∧ r.impact = impact) ∧
    (∀ cid, cid ≠ 0 →
       spm.find? (fun x => x.catalog_id == cid && x.urgency == urgency && x.impact == impact) = none →
       matrix_priority_service spm pm (some cid) urgency impact =
         matrix_priority_global pm urgency impact) ∧
    (∀ r, pm.find? (fun x => x.urgency == urgency && x.impact == impact) = some r →
       matrix_priority_global pm urgency impact = r.priority ∧
       r.urgency = urgency ∧ r.impact = impact) ∧
    (pm.find? (fun x => x.urgency == urgency && x.impact == impact) = none →
       matrix_priority_global pm urgency impact = "Media") := by
  refine ⟨rfl, rfl, ?_, ?_, ?_, ?_⟩
  · intro cid r hcid hfind
    have hmem := List.find?_some hfind
    simp only [Bool.and_eq_true, beq_iff_eq] at hmem
    refine ⟨?_, hmem.1.1, hmem.1.2, hmem.2⟩
    simp only [matrix_priority_service]
    rw [if_neg hcid, hfind]
  · intro cid hcid hfind
    simp only [matrix_priority_service]
    rw [if_neg hcid, hfind]
  · intro r hfind
    have hmem := List.find?_some hfind
    simp only [Bool.and_eq_true, beq_iff_eq] at hmem
    refine ⟨?_, hmem.1, hmem.2⟩
    unfold matrix_priority_global
    rw [hfind]
  · intro hfind
    unfold matrix_priority_global
    rw [hfind]

theorem c6_witness :
    matrix_priority_service [⟨5, "Alta", "Alto", "Crítica"⟩] [] (some 5) "Alta" "Alto" = "Crítica" ∧
    matrix_priority_service [⟨5, "Alta", "Alto", "Crítica"⟩] [] (some 9) "Alta" "Alto" = "Media" := by
  constructor
  · exact ((c6_matrix_priority_service_amended [⟨5, "Alta", "Alto", "Crítica"⟩] [] "Alta" "Alto").2.2.1
      5 ⟨5, "Alta", "Alto", "Crítica"⟩ (by decide) rfl).1
  · have h := (c6_matrix_priority_service_amended [⟨5, "Alta", "Alto", "Crítica"⟩] [] "Alta" "Alto").2.2.2.1
      9 (by decide) rfl
    have h2 := (c6_matrix_priority_service_amended [⟨5, "Alta", "Alto", "Crítica"⟩] [] "Alta" "Alto").2.2.2.2.2 rfl
    rw [h, h2]

/-- C5: `sla_lookup` returns the `(response_hours, resolution_hours)` pair
of the first active `sla_policies` row matching the process and priority,
`(4, 48)` when no active matching row exists, and a newly created ticket's
`due_at` is its creation time plus `resolution_hours` hours. -/
theorem c5_sla_lookup_and_due_at (policies : List SlaPolicy) (process priority : String) :
    (∀ r, policies.find?
        (fun x => x.process == process && x.priority == priority && x.active == 1) = some r →
      sla_lookup policies process priority = (r.response_hours, r.resolution_hours) ∧
      r.process = process ∧ r.priority = priority ∧ r.active = 1) ∧
    (policies.find?
        (fun x => x.process == process && x.priority == priority && x.active == 1) = none →
      sla_lookup policies process priority = (4, 48)) ∧
    (∀ id code title desc urg imp creator wh prod asset ci cat watchers cr cimp ps pe bp
        prc pw ppid now,
      (createTicket policies id code title desc process priority urg imp creator wh prod
          asset ci cat watchers cr cimp ps pe bp prc pw ppid now).due_at =
        some (now + 3600 * (sla_lookup policies process priority).2) ∧
      (createTicket policies id code title desc process priority urg imp creator wh prod
          asset ci cat watchers cr cimp ps pe bp prc pw ppid now).created_at = now ∧
      (createTicket policies id code title desc process priority urg imp creator wh prod
          asset ci cat watchers cr cimp ps pe bp prc pw ppid now).sla_hours =
        (sla_lookup policies process priority).2 ∧
      (createTicket policies id code title desc process priority urg imp creator wh prod
          asset ci cat watchers cr cimp ps pe bp prc pw ppid now).response_sla_hours =
        (sla_lookup policies process priority).1 ∧
      (createTicket policies id code title desc process priority urg imp creator wh prod
          asset ci cat watchers cr cimp ps pe bp prc pw ppid now).status = "Abierto") := by
  refine ⟨?_, ?_, ?_⟩
  · intro r hfind
    have hmem := List.find?_some hfind
    simp only [Bool.and_eq_true, beq_iff_eq] at hmem
    refine ⟨?_, hmem.1.1, hmem.1.2, ?_⟩
    · unfold sla_lookup
      rw [hfind]
    · exact hmem.2
  · intro hfind
    unfold sla_lookup
    rw [hfind]
  · intro id code title desc urg imp creator wh prod asset ci cat watchers cr cimp ps pe bp
      prc pw ppid now
    exact ⟨rfl, rfl, rfl, rfl, rfl⟩

theorem c5_witness :
    sla_lookup exPolicies "Incidente" "Alta" = (2, 24) ∧
    sla_lookup exPolicies "Cambio" "Alta" = (4, 48) ∧
    (createTicket exPolicies 1 "TCK-1" "t" "" "Incidente" "Alta" "Alta" "Alto" 1 none none
        none none none "" none none none none none none none none 1000).due_at =
      some (1000 + 3600 * 24) := by
  refine ⟨?_, ?_, ?_⟩
  · exact ((c5_sla_lookup_and_due_at exPolicies "Incidente" "Alta").1
      ⟨1, "Incidente", "Alta", 2, 24, 1⟩ rfl).1
  · exact (c5_sla_lookup_and_due_at exPolicies "Cambio" "Alta").2.1 rfl
  · have h := ((c5_sla_lookup_and_due_at exPolicies "Incidente" "Alta").2.2 1 "TCK-1" "t" ""
      "Alta" "Alto" 1 none none none none none "" none none none none none none none none 1000).1
    rw [h]
    rfl

/-- C8: `adjust_stock` clamps at zero and touches nothing else: after the
call the stored qty for the adjusted pair is `max 0 (previous + delta)`
(`max 0 delta` when no row existed), every other `(product, warehouse)`
pair reads the same as before, and nonnegativity of all rows is preserved. -/
theorem c8_adjust_stock (rows : List StockRow) (pid wid : Nat) (delta : Rat) :
    (stockLookup rows pid wid = none →
       stockLookup (adjust_stock rows pid wid delta) pid wid = some (max 0 delta)) ∧
    (∀ q, stockLookup rows pid wid = some q →
       stockLookup (adjust_stock rows pid wid delta) pid wid = some (max 0 (q + delta))) ∧
    (∀ pid2 wid2, ¬ (pid2 = pid ∧ wid2 = wid) →
       stockLookup (adjust_stock rows pid wid delta) pid2 wid2 = stockLookup rows pid2 wid2) ∧
    ((∀ r ∈ rows, 0 ≤ r.qty) → ∀ r ∈ adjust_stock rows pid wid delta, 0 ≤ r.qty) := by
  have hpres : ∀ (nq : Rat) (pid2 wid2 : Nat) (x : StockRow),
      ((if (x.product_id == pid && x.warehouse_id == wid) = true then
          { x with qty := nq } else x).product_id == pid2 &&
       (if (x.product_id == pid && x.warehouse_id == wid) = true then
          { x with qty := nq } else x).warehouse_id == wid2) =
      (x.product_id == pid2 && x.warehouse_id == wid2) := by
    intro nq pid2 wid2 x
    by_cases hx : (x.product_id == pid && x.warehouse_id == wid) = true
    · rw [if_pos hx]
    · rw [if_neg hx]
  refine ⟨?_, ?_, ?_, ?_⟩
  · intro h
    have hf : rows.find? (fun s => s.product_id == pid && s.warehouse_id == wid) = none := by
      unfold stockLookup at h
      exact Option.map_eq_none'.mp h
    simp only [adjust_stock, hf]
    unfold stockLookup
    rw [List.find?_append, hf]
    simp [List.find?]
  · intro q h
    unfold stockLookup at h
    cases hf : rows.find? (fun s => s.product_id == pid && s.warehouse_id == wid) with
    | none => rw [hf] at h; simp at h
    | some r =>
      rw [hf] at h
      simp only [Option.map_some'] at h
      have hq : r.qty = q := by injection h
      have hr := List.find?_some hf
      simp only [adjust_stock, hf]
      unfold stockLookup
      rw [findq_map_pred_invariant _ _ rows (hpres (max 0 (r.qty + delta)) pid wid), hf]
      simp only [Option.map_some']
      rw [if_pos hr, hq]
  · intro pid2 wid2 hne
    cases hf : rows.find? (fun s => s.product_id == pid && s.warehouse_id == wid) with
    | none =>
      simp only [adjust_stock, hf]
      unfold stockLookup
      rw [List.find?_append]
      have hnew : ([(⟨pid, wid, max 0 delta⟩ : StockRow)]).find?
          (fun s => s.product_id == pid2 && s.warehouse_id == wid2) = none := by
        have hb : ((⟨pid, wid, max 0 delta⟩ : StockRow).product_id == pid2 &&
            (⟨pid, wid, max 0 delta⟩ : StockRow).warehouse_id == wid2) = false := by
          by_contra hcon
          have hbt := eq_true_of_ne_false hcon
          simp only [Bool.and_eq_true, beq_iff_eq] at hbt
          exact hne ⟨hbt.1.symm, hbt.2.symm⟩
        simp [List.find?, hb]
      rw [hnew, Option.or_none]
    | some r =>
      simp only [adjust_stock, hf]
      unfold stockLookup
      rw [findq_map_pred_invariant _ _ rows (hpres (max 0 (r.qty + delta)) pid2 wid2)]
      cases hf2 : rows.find? (fun s => s.product_id == pid2 && s.warehouse_id == wid2) with
      | none => simp
      | some x =>
        have hx := List.find?_some hf2
        simp only [Bool.and_eq_true, beq_iff_eq] at hx
        have hgx : (if (x.product_id == pid && x.warehouse_id == wid) = true then
            { x with qty := max 0 (r.qty + delta) } else x) = x := by
          apply if_neg
          simp only [Bool.and_eq_true, beq_iff_eq]
          intro hcc
          exact hne ⟨hx.1.symm.trans hcc.1, hx.2.symm.trans hcc.2⟩
        simp only [Option.map_some']
        rw [hgx]
  · intro hnn r hr
    cases hf : rows.find? (fun s => s.product_id == pid && s.warehouse_id == wid) with
    | none =>
      simp only [adjust_stock, hf] at hr
      rcases List.mem_append.mp hr with h1 | h2
      · exact hnn r h1
      · have : r = ⟨pid, wid, max 0 delta⟩ := by simpa using h2
        rw [this]
        exact le_max_left 0 delta
    | some row =>
      simp only [adjust_stock, hf] at hr
      rcases List.mem_map.mp hr with ⟨x, hx, hgx⟩
      by_cases hxc : (x.product_id == pid && x.warehouse_id == wid) = true
      · rw [← hgx, if_pos hxc]
        exact le_max_left 0 (row.qty + delta)
      · rw [← hgx, if_neg hxc]
        exact hnn x hx

theorem c8_witness :
    stockLookup (adjust_stock [⟨1, 1, 5⟩] 1 1 (-7)) 1 1 = some (max 0 (5 + -7)) ∧
    stockLookup (adjust_stock [⟨1, 1, 5⟩] 1 1 (-7)) 2 1 = stockLookup [⟨1, 1, 5⟩] 2 1 := by
  constructor
  · exact (c8_adjust_stock [⟨1, 1, 5⟩] 1 1 (-7)).2.1 5 rfl
  · exact (c8_adjust_stock [⟨1, 1, 5⟩] 1 1 (-7)).2.2.1 2 1 (by decide)

/-- C2: the status transition table is enforced only for non-admins on the
ticket-management page: a non-admin save whose (effective) status change is
outside the table is rejected with the transition error and the tickets
table is left unchanged; an admin save always succeeds and applies exactly
the requested status; `state_transition_ok` agrees with the claimed table;
and the agent Kanban buttons apply their moves unconditionally — in
particular `En Progreso → Abierto`, which the table forbids. -/
theorem c2_transition_enforcement (now : Nat) (user : User) (users : List User)
    (approvals : List Approval) (t : Ticket) (inp : BandejaInput) (tickets : List Ticket) :
    (user.role ≠ "admin" →
      state_transition_ok t.status (effectiveNewStatus user t inp) = false →
      bandejaSave now user users approvals t inp =
        Except.error "Transición de estado no permitida por el flujo ITIL." ∧
      bandejaSaveTable now user users approvals t inp tickets = tickets) ∧
    (user.role = "admin" →
      bandejaSave now user users approvals t inp =
        Except.ok (bandejaApply now user users t inp) ∧
      (bandejaApply now user users t inp).status = inp.newStatus) ∧
    (∀ old nw, state_transition_ok old nw = true ↔ (old, nw) ∈ claimTransitions) ∧
    (t.status = "En Progreso" →
      (kanbanBack now t).status = "Abierto" ∧
      state_transition_ok "En Progreso" "Abierto" = false) ∧
    ((kanbanForward now t).status =
      if t.status = "Abierto" then "En Progreso" else "Resuelto") := by
  refine ⟨?_, ?_, ?_, ?_, ?_⟩
  · intro hrole hst
    have herr : bandejaSave now user users approvals t inp =
        Except.error "Transición de estado no permitida por el flujo ITIL." := by
      unfold bandejaSave
      rw [if_pos ⟨hst, hrole⟩]
    refine ⟨herr, ?_⟩
    unfold bandejaSaveTable
    rw [herr]
  · intro hrole
    constructor
    · unfold bandejaSave
      rw [if_neg (by intro h; exact h.2 hrole), if_neg (by intro h; exact h.2.2.1 hrole)]
    · have hce : can_edit_status user t = true := by
        unfold can_edit_status is_admin
        rw [hrole]
        simp
      simp only [bandejaApply, effectiveNewStatus, hce, if_true]
  · intro old nw
    constructor
    · intro h
      unfold state_transition_ok at h
      split_ifs at h with h1 h2 h3
      · subst h1
        simp only [List.contains_eq_any_beq, List.any_cons, List.any_nil, Bool.or_false,
          Bool.or_eq_true, beq_iff_eq] at h
        rcases h with h | h <;> (subst h; decide)
      · subst h2
        simp only [List.contains_eq_any_beq, List.any_cons, List.any_nil, Bool.or_false,
          Bool.or_eq_true, beq_iff_eq] at h
        rcases h with h | h <;> (subst h; decide)
      · subst h3
        simp only [List.contains_eq_any_beq, List.any_cons, List.any_nil, Bool.or_false,
          Bool.or_eq_true, beq_iff_eq] at h
        rcases h with h | h <;> (subst h; decide)
      · simp at h
    · intro h
      simp only [claimTransitions, List.mem_cons, List.not_mem_nil, or_false,
        Prod.mk.injEq] at h
      rcases h with ⟨ha, hb⟩ | ⟨ha, hb⟩ | ⟨ha, hb⟩ | ⟨ha, hb⟩ | ⟨ha, hb⟩ | ⟨ha, hb⟩ <;>
        (subst ha; subst hb; decide)
  · intro h
    constructor
    · unfold kanbanBack
      rw [h]
      simp
    · decide
  · unfold kanbanForward
    rfl

theorem c2_witness :
    bandejaSave 100 exAgent exUsers [] exAssignedTicket exInpResolve =
      Except.error "Transición de estado no permitida por el flujo ITIL." ∧
    bandejaSaveTable 100 exAgent exUsers [] exAssignedTicket exInpResolve [exAssignedTicket] =
      [exAssignedTicket] ∧
    bandejaSave 100 exAdmin exUsers [] exAssignedTicket exInpResolve =
      Except.ok (bandejaApply 100 exAdmin exUsers exAssignedTicket exInpResolve) := by
  have h1 := (c2_transition_enforcement 100 exAgent exUsers [] exAssignedTicket exInpResolve
    [exAssignedTicket]).1 (by decide) (by decide)
  have h2 := (c2_transition_enforcement 100 exAdmin exUsers [] exAssignedTicket exInpResolve
    [exAssignedTicket]).2.1 rfl
  exact ⟨h1.1, h1.2, h2.1⟩

/-- C1 counterexample: the agent Kanban page moves a `Cambio` ticket from
`En Progreso` to `Resuelto` although its single `change_approvals` row is
still `Pendiente` — the approval invariant is not enforced on that update. -/
theorem c1_counterexample :
    exCambioTicket.itil_type = "Cambio" ∧
    (kanbanForward 100 exCambioTicket).status = "Resuelto" ∧
    ticketApprovals exApprovals exCambioTicket ≠ [] ∧
    (ticketApprovals exApprovals exCambioTicket).any (fun a => a.status != "Aprobado") = true := by
  decide

/-- C1 (amended): the approval gate holds only on the ticket-management page
for non-admin users — when a non-admin there saves a `Cambio` ticket into
`Resuelto` or `Cerrado`, at least one `change_approvals` row exists for the
ticket and every such row is `Aprobado`; admins and the Kanban page bypass
the check. -/
theorem c1_change_close_requires_approvals (now : Nat) (user : User) (users : List User)
    (approvals : List Approval) (t : Ticket) (inp : BandejaInput) (t2 : Ticket)
    (hrole : user.role ≠ "admin") (hitil : t.itil_type = "Cambio")
    (hok : bandejaSave now user users approvals t inp = Except.ok t2)
    (hst : t2.status = "Resuelto" ∨ t2.status = "Cerrado") :
    ticketApprovals approvals t ≠ [] ∧
    ∀ a ∈ ticketApprovals approvals t, a.status = "Aprobado" := by
  unfold bandejaSave at hok
  split_ifs at hok with h1 h2
  have ht2 : t2 = bandejaApply now user users t inp := by
    injection hok with h
    exact h.symm
  have hns : t2.status = effectiveNewStatus user t inp := by
    rw [ht2]
    rfl
  have hblock : approvalsBlock approvals t = false := by
    by_contra hb
    have hbt : approvalsBlock approvals t = true := eq_true_of_ne_false hb
    exact h2 ⟨hitil, by rw [← hns]; exact hst, hrole, hbt⟩
  unfold approvalsBlock at hblock
  rw [Bool.or_eq_false_iff] at hblock
  constructor
  · intro hnil
    rw [hnil] at hblock
    simp at hblock
  · have hany := hblock.2
    simp only [List.any_eq_false, bne_iff_ne, ne_eq, not_not] at hany
    exact hany

theorem c1_witness :
    ticketApprovals exApprovedApprovals exCambioTicket ≠ [] ∧
    (ticketApprovals exApprovedApprovals exCambioTicket).all
      (fun a => a.status == "Aprobado") = true := by
  have h := c1_change_close_requires_approvals 100 exAgent exUsers exApprovedApprovals
    exCambioTicket exInpResolve (bandejaApply 100 exAgent exUsers exCambioTicket exInpResolve)
    (by decide) rfl rfl (Or.inl rfl)
  refine ⟨h.1, List.all_eq_true.mpr ?_⟩
  intro a ha
  exact beq_iff_eq.mpr (h.2 a ha)

/-- C7 counterexample: through the ticket-management page an admin assigns
the ticket to user 2, an active user whose role is `visor`, not `agente` —
so `assigned_to` need not reference an agent. -/
theorem c7_counterexample :
    (savedTicket (bandejaSave 100 exAdmin exUsers [] baseTicket exInputAssign)).map
        Ticket.assigned_to = some (some 2) ∧
    (exUsers.find? (fun u => u.id == 2)).map User.role = some "visor" ∧
    ("visor" : String) ≠ "agente" := by decide

/-- C7 (amended): the id written to `assigned_to` by a successful save is
either the acting user's own id or the id of an active user — of any role,
not necessarily an agent. -/
theorem c7_assignment_references_active_user (now : Nat) (user : User) (users : List User)
    (approvals : List Approval) (t : Ticket) (inp : BandejaInput) (t2 : Ticket) (aid : Nat)
    (hok : bandejaSave now user users approvals t inp = Except.ok t2)
    (hass : t2.assigned_to = some aid) :
    aid = user.id ∨ ∃ u ∈ users, u.active = 1 ∧ u.id = aid := by
  have ht2 : t2 = bandejaApply now user users t inp := by
    unfold bandejaSave at hok
    split_ifs at hok
    injection hok with h
    exact h.symm
  have hres : resolveAssigneeId user users (effectiveAssignee user users t inp) = some aid := by
    rw [ht2] at hass
    exact hass
  rcases hev : effectiveAssignee user users t inp with _ | name
  · rw [hev] at hres
    exact absurd hres (by simp [resolveAssigneeId])
  · rw [hev] at hres
    simp only [resolveAssigneeId] at hres
    by_cases hemp : name = ""
    · rw [if_pos hemp] at hres
      exact absurd hres (by simp)
    · rw [if_neg hemp] at hres
      by_cases huser : name = user.username
      · rw [if_pos huser] at hres
        left
        injection hres with h
        exact h.symm
      · rw [if_neg huser] at hres
        rcases hfind : (activeUsers users).find? (fun u => u.username == name) with _ | u
        · rw [hfind] at hres
          exact absurd hres (by simp)
        · rw [hfind] at hres
          have hmem := List.mem_of_find?_eq_some hfind
          unfold activeUsers at hmem
          rw [List.mem_filter] at hmem
          right
          refine ⟨u, hmem.1, ?_, ?_⟩
          · have := hmem.2
            simpa using this
          · exact Option.some.inj hres

theorem c7_witness :
    2 = exAdmin.id ∨ exUsers.any (fun u => u.active == 1 && u.id == 2) = true := by
  rcases c7_assignment_references_active_user 100 exAdmin exUsers [] baseTicket exInputAssign
      (bandejaApply 100 exAdmin exUsers baseTicket exInputAssign) 2 rfl rfl with
    h | ⟨u, hu, ha, hi⟩
  · exact Or.inl h
  · refine Or.inr (List.any_eq_true.mpr ⟨u, hu, ?_⟩)
    rw [ha, hi]
    decide

/-- C4: `hash_password(p, s)` is the SHA-256 hex digest of the UTF-8 bytes
of `s ++ p`; every stored credential (initial admin, signup, SSO
auto-provision, password reset) is produced by `hash_password` with the
generated salt stored alongside; and login succeeds exactly when the first
active user row with the submitted username exists and hashing the
submitted password with its stored salt reproduces the stored hash. -/
theorem c4_password_hashing (users : List User) (username pwd : String) :
    (∀ p s, hash_password p s = sha256hex (utf8Encode (s ++ p))) ∧
    (∀ id now salt, (initialAdminUser id now salt).password_hash = hash_password "admin" salt ∧
       (initialAdminUser id now salt).password_salt = salt) ∧
    (∀ id un em pw salt now,
       (signupUser id un em pw salt now).password_hash = hash_password pw salt ∧
       (signupUser id un em pw salt now).password_salt = salt) ∧
    (∀ id un rp salt now,
       (ssoProvisionUser id un rp salt now).password_hash = hash_password rp salt ∧
       (ssoProvisionUser id un rp salt now).password_salt = salt) ∧
    (∀ np ns u, (resetUserUpdate np ns u).password_hash = hash_password np ns ∧
       (resetUserUpdate np ns u).password_salt = ns) ∧
    (loginOk users username pwd = true ↔
       ∃ u, findActiveUser users username = some u ∧
         hash_password pwd u.password_salt = u.password_hash) ∧
    (∀ u, findActiveUser users username = some u → u.username = username ∧ u.active = 1) := by
  refine ⟨fun p s => rfl, fun id now salt => ⟨rfl, rfl⟩, fun id un em pw salt now => ⟨rfl, rfl⟩,
    fun id un rp salt now => ⟨rfl, rfl⟩, fun np ns u => ⟨rfl, rfl⟩, ?_, ?_⟩
  · unfold loginOk
    cases hf : findActiveUser users username with
    | none => simp
    | some row =>
      simp only [beq_iff_eq]
      constructor
      · intro h
        exact ⟨row, rfl, h⟩
      · rintro ⟨u, hu, hh⟩
        rw [Option.some.inj hu]
        exact hh
  · intro u hf
    unfold findActiveUser at hf
    have hp := List.find?_some hf
    simp only [Bool.and_eq_true, beq_iff_eq] at hp
    exact hp

theorem c4_witness :
    loginOk [initialAdminUser 1 0 "c0ffee"] "admin" "admin" = true :=
  (c4_password_hashing [initialAdminUser 1 0 "c0ffee"] "admin" "admin").2.2.2.2.2.1.mpr
    ⟨initialAdminUser 1 0 "c0ffee", rfl, rfl⟩

/-- C9: `complete_password_reset` returns `False` and leaves the database
unchanged when no unused row carries the token or when the row has expired;
on success it updates exactly the matched user's hash and salt (via
`resetUserUpdate` with the freshly supplied salt), marks exactly the matched
token row used, and — tokens and row ids being unique, as their SQL
constraints guarantee — a second use of the same token fails. -/
theorem c9_password_reset_tokens (now : Nat) (newSalt token new_password : String) (db : AuthDb) :
    (db.resets.find? (fun r => r.token == token && r.used == 0) = none →
       complete_password_reset now newSalt token new_password db = (false, db)) ∧
    (∀ row, db.resets.find? (fun r => r.token == token && r.used == 0) = some row →
       row.expires_at < now →
       complete_password_reset now newSalt token new_password db = (false, db)) ∧
    (∀ row, db.resets.find? (fun r => r.token == token && r.used == 0) = some row →
       ¬ row.expires_at < now →
       (complete_password_reset now newSalt token new_password db).1 = true ∧
       row ∈ db.resets ∧ row.token = token ∧ row.used = 0 ∧
       (∀ u ∈ db.users, u.id = row.user_id →
          resetUserUpdate new_password newSalt u ∈
            (complete_password_reset now newSalt token new_password db).2.users) ∧
       (∀ u ∈ db.users, u.id ≠ row.user_id →
          u ∈ (complete_password_reset now newSalt token new_password db).2.users) ∧
       (∀ r ∈ db.resets, r.id = row.id →
          { r with used := 1 } ∈
            (complete_password_reset now newSalt token new_password db).2.resets) ∧
       (∀ r ∈ db.resets, r.id ≠ row.id →
          r ∈ (complete_password_reset now newSalt token new_password db).2.resets)) ∧
    ((db.resets.map ResetRow.id).Nodup → (db.resets.map ResetRow.token).Nodup →
       (complete_password_reset now newSalt token new_password db).1 = true →
       ∀ now2 newSalt2 new_password2,
         (complete_password_reset now2 newSalt2 token new_password2
            (complete_password_reset now newSalt token new_password db).2).1 = false) := by
  refine ⟨?_, ?_, ?_, ?_⟩
  · intro h
    simp only [complete_password_reset, h]
  · intro row h hexp
    simp only [complete_password_reset, h]
    rw [if_pos hexp]
  · intro row h hexp
    have hresult : complete_password_reset now newSalt token new_password db =
        (true,
         { users := db.users.map
             (fun u => if u.id == row.user_id then resetUserUpdate new_password newSalt u else u),
           resets := db.resets.map
             (fun r => if r.id == row.id then { r with used := 1 } else r) }) := by
      simp only [complete_password_reset, h]
      rw [if_neg hexp]
    have hprop := List.find?_some h
    simp only [Bool.and_eq_true, beq_iff_eq] at hprop
    refine ⟨by rw [hresult], List.mem_of_find?_eq_some h, hprop.1, hprop.2, ?_, ?_, ?_, ?_⟩
    · intro u hu heq
      rw [hresult]
      exact List.mem_map.mpr ⟨u, hu, by rw [if_pos (beq_iff_eq.mpr heq)]⟩
    · intro u hu hne
      rw [hresult]
      exact List.mem_map.mpr ⟨u, hu, by rw [if_neg (fun hc => hne (beq_iff_eq.mp hc))]⟩
    · intro r hr heq
      rw [hresult]
      exact List.mem_map.mpr ⟨r, hr, by rw [if_pos (beq_iff_eq.mpr heq)]⟩
    · intro r hr hne
      rw [hresult]
      exact List.mem_map.mpr ⟨r, hr, by rw [if_neg (fun hc => hne (beq_iff_eq.mp hc))]⟩
  · intro hids htoks hsucc now2 newSalt2 new_password2
    cases hfind : db.resets.find? (fun r => r.token == token && r.used == 0) with
    | none =>
      simp only [complete_password_reset, hfind] at hsucc
      simp at hsucc
    | some row =>
      by_cases hexp : row.expires_at < now
      · simp only [complete_password_reset, hfind] at hsucc
        rw [if_pos hexp] at hsucc
        simp at hsucc
      · have hresult : complete_password_reset now newSalt token new_password db =
            (true,
             { users := db.users.map
                 (fun u => if u.id == row.user_id then resetUserUpdate new_password newSalt u else u),
               resets := db.resets.map
                 (fun r => if r.id == row.id then { r with used := 1 } else r) }) := by
          simp only [complete_password_reset, hfind]
          rw [if_neg hexp]
        rw [hresult]
        have hrowmem := List.mem_of_find?_eq_some hfind
        have hprop := List.find?_some hfind
        simp only [Bool.and_eq_true, beq_iff_eq] at hprop
        have hfind2 : (db.resets.map
            (fun r => if r.id == row.id then { r with used := 1 } else r)).find?
              (fun r => r.token == token && r.used == 0) = none := by
          rw [List.find?_eq_none]
          intro x hx
          rcases List.mem_map.mp hx with ⟨r, hr, hxr⟩
          by_cases hid : r.id = row.id
          · have hreq : r = row := List.inj_on_of_nodup_map hids hr hrowmem hid
            rw [← hxr, if_pos (beq_iff_eq.mpr hid), hreq]
            simp
          · rw [← hxr, if_neg (fun hc => hid (beq_iff_eq.mp hc))]
            intro hcon
            simp only [Bool.and_eq_true, beq_iff_eq] at hcon
            have hreq : r = row :=
              List.inj_on_of_nodup_map htoks hr hrowmem (hcon.1.trans hprop.1.symm)
            exact hid (congrArg ResetRow.id hreq)
        simp only [complete_password_reset, hfind2]

theorem c9_witness :
    (complete_password_reset 1000 "freshsalt" "tok123" "newpw" exAuthDb).1 = true ∧
    (complete_password_reset 2000 "salt2" "tok123" "pw2"
      (complete_password_reset 1000 "freshsalt" "tok123" "newpw" exAuthDb).2).1 = false := by
  have hs := ((c9_password_reset_tokens 1000 "freshsalt" "tok123" "newpw" exAuthDb).2.2.1
    ⟨1, 7, "tok123", 0, 3600, 0⟩ rfl (by decide)).1
  refine ⟨hs, ?_⟩
  exact (c9_password_reset_tokens 1000 "freshsalt" "tok123" "newpw" exAuthDb).2.2.2
    (by decide) (by decide) hs 2000 "salt2" "pw2"
